import Mathlib

/-!
# Verification of the XenAPI VM orchestration core (`nova/virt/xenapi/vmops.py`)

A shallow embedding of the orchestration logic of `VMOps`:
the step/progress decorator (`make_step_decorator`, `_update_instance_progress`),
the spawn pipeline (`VMOps._spawn`) with its compensation ledger,
the resize-up disk migration (`_migrate_disk_resizing_up`),
destroy (`VMOps.destroy`, `VMOps._destroy`, `_destroy_kernel_ramdisk`),
`attach_block_device_volumes`, and `change_instance_metadata`.

Remote side effects (XenAPI calls, disk helpers, log signals) are embedded as
explicit event traces; fallible code returns `Except`/`Option` values.
`nova.utils.UndoManager` and `nova.utils.synchronized` are not part of the
sources; they are modelled from the specification where noted.
-/

namespace NovaVmops

/-- Errors raised by the orchestration layer (`nova.exception` classes, plus an
abstract remote step failure, the Python `KeyError`, and the wrapped
rollback fault). -/
inductive Err where
  | instanceExists (name : String)
  | insufficientFreeMemory
  | instanceUnacceptable
  | instanceNotFound
  | stepFailed (k : Nat)
  | keyError
  | spawnRolledBack (orig : Err)
  deriving Repr, DecidableEq

/-! ## Progress tracker: `make_step_decorator` (vmops.py lines 108-151) and
`_update_instance_progress` (lines 743-759). -/

/-- Python 2 `round(num/den)` for non-negative `num/den`: round half away from
zero, i.e. `floor(num/den + 1/2)`.  Used by `_update_instance_progress`:
`progress = round(float(step) / total_steps * 100)`. -/
def pyRound (num den : Nat) : Nat := (2 * num + den) / (2 * den)

/-- The decorator's mutable `step_info = dict(total=total_offset, current=0)`. -/
structure StepInfo where
  total : Nat
  current : Nat
  deriving Repr, DecidableEq

/-- `step_info = dict(total=total_offset, current=0)` (line 133). -/
def make_step_decorator_init (total_offset : Nat) : StepInfo :=
  ⟨total_offset, 0⟩

/-- Applying the step decorator: `step_info['total'] += 1` (line 141). -/
def register_step (si : StepInfo) : StepInfo :=
  ⟨si.total + 1, si.current⟩

/-- `bump_progress` (lines 135-138): `step_info['current'] += 1` then
`update_instance_progress(current, total)`, which emits
`round(current/total * 100)` (line 755). -/
def bump_progress (si : StepInfo) : StepInfo × Nat :=
  (⟨si.total, si.current + 1⟩, pyRound (100 * (si.current + 1)) si.total)

/-- One interaction with the progress tracker: a decoration (`register`) or a
completed step invocation (`advance`). -/
inductive TrackerEvent where
  | register
  | advance
  deriving Repr, DecidableEq

/-- Run a sequence of tracker interactions from a given state, collecting the
progress percentages emitted to the instance store. -/
def trackerRun : StepInfo → List TrackerEvent → List Nat
  | _, [] => []
  | si, .register :: rest => trackerRun (register_step si) rest
  | si, .advance :: rest =>
      (bump_progress si).2 :: trackerRun (bump_progress si).1 rest

/-! ## The spawn pipeline: `VMOps._spawn` (lines 360-506). -/

/-- The named steps of the spawn pipeline, as decorated in `spawn`/`_spawn`. -/
inductive StepName where
  | determineDiskImageType
  | createDisks
  | createKernelRamdisk
  | createVMRecord
  | attachDisks
  | attachRootDisk
  | injectInstanceData
  | setupNetwork
  | bootInstance
  | configureBootedInstance
  | applySecurityGroupFilters
  deriving Repr, DecidableEq

/-- Order in which `@step` decorations run, i.e. in which
`step_info['total']` is bumped: `create_disks_step` is decorated inside
`spawn` (line 341) before `_spawn` decorates the others in textual order
(lines 371-472); `attach_root_disk_step` is decorated only when `rescue`
(lines 426-439), between `attach_disks_step` and `inject_instance_data_step`. -/
def spawnRegistrationOrder (rescue : Bool) : List StepName :=
  [.createDisks, .determineDiskImageType, .createKernelRamdisk, .createVMRecord,
   .attachDisks]
  ++ (if rescue then [.attachRootDisk] else [])
  ++ [.injectInstanceData, .setupNetwork, .bootInstance,
      .configureBootedInstance, .applySecurityGroupFilters]

/-- Order in which the steps are invoked inside the `try` block of `_spawn`
(lines 481-500): the rescue-only `attach_root_disk_step` is called after
`setup_network_step` and before `boot_instance_step` (lines 494-497). -/
def spawnExecutionOrder (rescue : Bool) : List StepName :=
  [.determineDiskImageType, .createDisks, .createKernelRamdisk, .createVMRecord,
   .attachDisks, .injectInstanceData, .setupNetwork]
  ++ (if rescue then [.attachRootDisk] else [])
  ++ [.bootInstance, .configureBootedInstance, .applySecurityGroupFilters]

/-- The tracker interactions of one `_spawn` run that completes every step:
all decorations happen before the `try` block runs, then each invoked step
bumps the current count once. -/
def spawnTrackerEvents (rescue : Bool) : List TrackerEvent :=
  List.replicate (spawnRegistrationOrder rescue).length TrackerEvent.register
  ++ List.replicate (spawnExecutionOrder rescue).length TrackerEvent.advance

/-- Progress percentages emitted during a fully successful `_spawn` run
(`spawn` passes no `total_offset`, so it defaults to 0). -/
def spawnProgressEmissions (rescue : Bool) : List Nat :=
  trackerRun (make_step_decorator_init 0) (spawnTrackerEvents rescue)

/-! ## Compensation ledger and the saga structure of `_spawn` (lines 474-506).

`_spawn` builds a `utils.UndoManager`, runs the steps in order inside `try`,
and on any exception calls `undo_mgr.rollback_and_reraise(msg="Failed to
spawn, rolling back")`.  `nova/utils.py` is not among the sources, so the
ledger itself is modelled from the specification. -/

/-- A compensating action as registered by a spawn step: an identity and
whether the compensation itself will fail when invoked during rollback. -/
structure Comp where
  id : Nat
  fails : Bool
  deriving Repr, DecidableEq

/-- A pipeline step: its name and the compensations it registers (in
registration order) when it completes. -/
structure SagaStep where
  name : StepName
  comps : List Comp
  deriving Repr, DecidableEq

/-- Modelled from the spec: `nova.utils.UndoManager` (used by `_spawn` at
lines 474-506) is not among the sources.  Spec 4.2: the ledger is "an ordered,
append-only (until rollback) list of compensating closures". -/
structure UndoManager where
  undos : List Comp
  deriving Repr, DecidableEq

/-- Modelled from the spec: `register(compensation)`: push a zero-argument
action onto the ledger (`undo_mgr.undo_with(...)` in the source steps). -/
def UndoManager.undo_with (m : UndoManager) (c : Comp) : UndoManager :=
  ⟨m.undos ++ [c]⟩

/-- Modelled from the spec: `rollback(original_error)`: pop and invoke every
registered compensation in reverse order; each compensation failure is caught
and logged individually and never aborts the unwind; after exhausting the
ledger, re-raise a wrapped fault carrying `original_error` as cause.  The
result is the list of compensation ids invoked, in invocation order (failing
compensations included: they are caught, not propagated), together with the
re-raised wrapped fault. -/
def UndoManager.rollback_and_reraise (m : UndoManager) (orig : Err) :
    List Nat × Err :=
  ((m.undos.reverse).map Comp.id, Err.spawnRolledBack orig)

/-- Register a step's compensations one at a time. -/
def registerAll (m : UndoManager) (cs : List Comp) : UndoManager :=
  cs.foldl UndoManager.undo_with m

/-- The forward phase of the `try` block of `_spawn`: run the steps in order;
`failAt = some (k, j, e)` makes step `k` raise `e` after registering only the
first `j` of its compensations; `failAt = none` is a fully successful run.
Returns the ledger and the raised error, if any. -/
def runForward :
    List SagaStep → Option (Nat × Nat × Err) → UndoManager →
      UndoManager × Option Err
  | [], _, m => (m, none)
  | s :: _, some (0, j, e), m => (registerAll m (s.comps.take j), some e)
  | s :: rest, some (k + 1, j, e), m =>
      runForward rest (some (k, j, e)) (registerAll m s.comps)
  | s :: rest, none, m => runForward rest none (registerAll m s.comps)

/-- `_spawn`'s saga: run the forward phase; on success the ledger is simply
discarded, on an exception the ledger is rolled back and the wrapped original
error re-raised (lines 504-506).  Returns the rollback invocation trace and
the outcome. -/
def runPipeline (steps : List SagaStep) (failAt : Option (Nat × Nat × Err)) :
    List Nat × Except Err Unit :=
  match runForward steps failAt ⟨[]⟩ with
  | (_, none) => ([], Except.ok ())
  | (m, some e) =>
      let (invoked, err) := m.rollback_and_reraise e
      (invoked, Except.error err)

/-- The compensations registered by steps `0..k-1` plus the first `j`
compensations of step `k`, in registration order. -/
def compsRegisteredUpTo (steps : List SagaStep) (k j : Nat) : List Comp :=
  (steps.take k).flatMap SagaStep.comps ++
    (match steps.drop k with
     | [] => []
     | s :: _ => s.comps.take j)

/-- The compensations registered by each step of `_spawn`:
`create_disks_step` registers `undo_create_disks` (lines 348-353),
`create_kernel_ramdisk_step` registers `undo_create_kernel_ramdisk`
(lines 380-384), `create_vm_record_step` registers `undo_create_vm`
(lines 394-397), and `attach_root_disk_step` (rescue only) registers
`undo_attach_root_disk` (lines 434-439); the other steps register none.
`compFails` assigns to each compensation whether it itself fails when run. -/
def spawnStepComps (compFails : Nat → Bool) : StepName → List Comp
  | .createDisks => [⟨0, compFails 0⟩]
  | .createKernelRamdisk => [⟨1, compFails 1⟩]
  | .createVMRecord => [⟨2, compFails 2⟩]
  | .attachRootDisk => [⟨3, compFails 3⟩]
  | _ => []

/-- The spawn pipeline as a saga: the execution-ordered steps with their
registered compensations. -/
def spawnSaga (rescue : Bool) (compFails : Nat → Bool) : List SagaStep :=
  (spawnExecutionOrder rescue).map (fun n => ⟨n, spawnStepComps compFails n⟩)

/-! ## Resize-up disk migration: `_migrate_disk_resizing_up` (lines 829-988).

Each disk chain is represented by the list of VDI uuids its snapshot yields,
head first: `chain[0]` is the active leaf VHD, `chain[1:]` the immutable
(already coalesced) segments. -/

/-- Remote disk operations issued during `_migrate_disk_resizing_up`:
`snapshotDisk d` is a `vm_utils.snapshot_attached_here` for disk `d` (0 =
root, `i + 1` = i-th ephemeral); `migrateVhd d seq u` is a
`vm_utils.migrate_vhd` of VHD `u` of disk `d` with sequence number `seq`;
`shutdownVM` is `_resize_ensure_vm_is_shutdown`. -/
inductive MigEvent where
  | snapshotDisk (disk : Nat)
  | migrateVhd (disk : Nat) (seq : Nat) (uuid : Nat)
  | shutdownVM
  deriving Repr, DecidableEq

/-- Whether the event is a snapshot. -/
def MigEvent.isSnapshot : MigEvent → Bool
  | .snapshotDisk _ => true
  | _ => false

/-- Whether the event is the power-down. -/
def MigEvent.isShutdown : MigEvent → Bool
  | .shutdownVM => true
  | _ => false

/-- `transfer_immutable_vhds` (lines 868-877): migrate
`immutable_root_vdi_uuids = root_vdi_uuids[1:]` with `vhd_num` counting from
1, and return `active_root_vdi_uuid = root_vdi_uuids[0]`. -/
def transfer_immutable_vhds (rootVdiUuids : List Nat) : List MigEvent × Nat :=
  ((rootVdiUuids.drop 1).enum.map
      (fun p => MigEvent.migrateVhd 0 (p.1 + 1) p.2),
   rootVdiUuids.headD 0)

/-- `power_down_and_transfer_leaf_vhds` (lines 947-958): shut the VM down,
migrate the root leaf with sequence number 0, then each ephemeral leaf with
sequence number 0 and `ephemeral_disk_number` counting from 1. -/
def power_down_and_transfer_leaf_vhds (rootVdiUuid : Nat)
    (ephemeralVdiUuids : List Nat) : List MigEvent :=
  MigEvent.shutdownVM :: MigEvent.migrateVhd 0 0 rootVdiUuid ::
    (ephemeralVdiUuids.enum.map
      (fun p => MigEvent.migrateVhd (p.1 + 1) 0 p.2))

/-- `_process_ephemeral_chain_recursive` (lines 879-932): with no chains left,
power down and transfer the leaf VHDs of all disks; otherwise snapshot the
current ephemeral disk (`userdevice = DEVICE_EPHEMERAL + len(active_vdi_uuids)`,
`ephemeral_disk_number = len(active_vdi_uuids) + 1`), remember its active
leaf, migrate the inactive VHDs of its chain with `seq_num` counting from 1,
and recurse on the remaining chains. -/
def process_ephemeral_chain_recursive (activeRootVdiUuid : Nat) :
    List (List Nat) → List Nat → List MigEvent
  | [], activeVdiUuids =>
      power_down_and_transfer_leaf_vhds activeRootVdiUuid activeVdiUuids
  | currentChain :: remainingChains, activeVdiUuids =>
      MigEvent.snapshotDisk (activeVdiUuids.length + 1) ::
        ((currentChain.drop 1).enum.map
            (fun p => MigEvent.migrateVhd (activeVdiUuids.length + 1)
              (p.1 + 1) p.2))
        ++ process_ephemeral_chain_recursive activeRootVdiUuid remainingChains
            (activeVdiUuids ++ [currentChain.headD 0])

/-- `_migrate_disk_resizing_up` (lines 960-975), disk operations only: take
the root snapshot, transfer the immutable root VHDs, then
`transfer_ephemeral_disks_then_all_leaf_vdis` runs the ephemeral recursion
starting from an empty active list. -/
def migrate_disk_resizing_up (rootVdiUuids : List Nat)
    (ephemeralChains : List (List Nat)) : List MigEvent :=
  MigEvent.snapshotDisk 0 ::
    (transfer_immutable_vhds rootVdiUuids).1
    ++ process_ephemeral_chain_recursive
        (transfer_immutable_vhds rootVdiUuids).2 ephemeralChains []

/-- The pre-shutdown (immutable) part of the ephemeral recursion, for chains
starting at ephemeral index `k`. -/
def ephImmutablePart : List (List Nat) → Nat → List MigEvent
  | [], _ => []
  | chain :: rest, k =>
      MigEvent.snapshotDisk (k + 1) ::
        ((chain.drop 1).enum.map
            (fun p => MigEvent.migrateVhd (k + 1) (p.1 + 1) p.2))
        ++ ephImmutablePart rest (k + 1)

/-- Tracker interactions of `_migrate_disk_resizing_down` (lines 773-827): the
decorator is created with `total_offset=1` (line 777) and four functions are
decorated (`fake_step_to_match_resizing_up`, `rename_and_power_off_vm`,
`create_copy_vdi_and_resize`, `transfer_vhd_to_dest`) before the `try` block
invokes all four (lines 814-821). -/
def resizeDownTrackerEvents : List TrackerEvent :=
  List.replicate 4 TrackerEvent.register ++ List.replicate 4 TrackerEvent.advance

/-! ## Spawn preconditions: `_ensure_instance_name_unique` (lines 519-522),
`_ensure_enough_free_mem` (lines 524-526), called by `_spawn` before any step
runs (lines 368-369). -/

/-- The remote environment consulted by the spawn precondition checks:
`vm_utils.lookup` resolving a name label to a VM handle and
`vm_utils.is_enough_free_mem`. -/
structure SpawnEnv where
  lookup : String → Option Nat
  enoughFreeMem : Bool

/-- `_ensure_instance_name_unique` (lines 519-522): raise `InstanceExists`
when the name label already resolves to a VM handle. -/
def ensure_instance_name_unique (env : SpawnEnv) (name_label : String) :
    Except Err Unit :=
  match env.lookup name_label with
  | some _ => Except.error (Err.instanceExists name_label)
  | none => Except.ok ()

/-- `_ensure_enough_free_mem` (lines 524-526): raise
`InsufficientFreeMemory` when the host lacks free memory. -/
def ensure_enough_free_mem (env : SpawnEnv) : Except Err Unit :=
  if env.enoughFreeMem then Except.ok ()
  else Except.error Err.insufficientFreeMemory

/-- Observable events of a `_spawn` call: the two precondition checks and
each pipeline step starting (a step start is the first point at which remote
allocation can occur). -/
inductive SpawnEvent where
  | checkNameUnique
  | checkFreeMem
  | stepStarted (s : StepName)
  deriving Repr, DecidableEq

/-- `_spawn` (lines 360-506) at the level of checks and step starts: the name
uniqueness check runs first, then the free-memory check, then the steps in
execution order; `failAt = some k` makes step `k` raise (the failure event
trace keeps the started steps up to and including `k`). -/
def spawnEvents (env : SpawnEnv) (name_label : String) (rescue : Bool)
    (failAt : Option Nat) : List SpawnEvent × Except Err Unit :=
  match ensure_instance_name_unique env name_label with
  | Except.error e => ([SpawnEvent.checkNameUnique], Except.error e)
  | Except.ok () =>
      match ensure_enough_free_mem env with
      | Except.error e =>
          ([SpawnEvent.checkNameUnique, SpawnEvent.checkFreeMem],
           Except.error e)
      | Except.ok () =>
          match failAt with
          | none =>
              (SpawnEvent.checkNameUnique :: SpawnEvent.checkFreeMem ::
                 (spawnExecutionOrder rescue).map SpawnEvent.stepStarted,
               Except.ok ())
          | some k =>
              (SpawnEvent.checkNameUnique :: SpawnEvent.checkFreeMem ::
                 ((spawnExecutionOrder rescue).take (k + 1)).map
                   SpawnEvent.stepStarted,
               Except.error (Err.spawnRolledBack (Err.stepFailed k)))

/-- A `SpawnEnv` in which every name resolves to a live handle. -/
def spawnEnvDup : SpawnEnv :=
  ⟨fun _ => some 7, true⟩

/-! ## Destroy: `VMOps.destroy` (lines 1293-1317), `VMOps._destroy`
(lines 1319-1345), `_destroy_kernel_ramdisk` (lines 1244-1275) and
`_destroy_rescue_instance` (lines 1277-1291). -/

/-- The fields of the instance record that the destroy path reads. -/
structure Instance where
  name : String
  uuid : String
  kernel_id : Option String
  ramdisk_id : Option String
  deriving Repr, DecidableEq

/-- Teardown actions and signals emitted by the destroy path. -/
inductive DestroyEvent where
  | warnVMNotPresent
  | hardShutdown
  | detachAllVolumes
  | destroyVdis
  | removeKernelRamdisk (kernel ramdisk : Option String)
  | destroyVMRecord
  | unplugVifs
  | unfilterInstance
  | rescueHardShutdown
  | rescueDestroyVdis
  | rescueDestroyVMRecord
  deriving Repr, DecidableEq

/-- `_destroy_kernel_ramdisk` (lines 1244-1275): no kernel and no ramdisk on
the instance record is a no-op; exactly one of the two raises
`InstanceUnacceptable`; both present removes the files looked up on the VM
(`lookup_kernel_ramdisk`), skipping the removal call when neither file is
found. -/
def destroy_kernel_ramdisk (inst : Instance) (kernel ramdisk : Option String) :
    Except Err (List DestroyEvent) :=
  if inst.kernel_id = none ∧ inst.ramdisk_id = none then
    Except.ok []
  else if ¬(inst.kernel_id ≠ none ∧ inst.ramdisk_id ≠ none) then
    Except.error Err.instanceUnacceptable
  else if kernel ≠ none ∨ ramdisk ≠ none then
    Except.ok [DestroyEvent.removeKernelRamdisk kernel ramdisk]
  else
    Except.ok []

/-- `VMOps._destroy` (lines 1319-1345): absent handle is a warning-only
no-op; otherwise hard shutdown, then (when `destroy_disks`) detach all
volumes, destroy the VDIs and the kernel/ramdisk files, then destroy the VM
record, unplug VIFs and unfilter.  `kernel`/`ramdisk` are the files
`lookup_kernel_ramdisk` finds on the VM.  An `InstanceUnacceptable` from the
kernel/ramdisk step aborts the remaining teardown. -/
def vmops_destroy_inner (inst : Instance) (vm_ref : Option Nat)
    (kernel ramdisk : Option String) (destroy_disks : Bool) :
    List DestroyEvent × Option Err :=
  match vm_ref with
  | none => ([DestroyEvent.warnVMNotPresent], none)
  | some _ =>
      if destroy_disks then
        match destroy_kernel_ramdisk inst kernel ramdisk with
        | Except.error e =>
            ([DestroyEvent.hardShutdown, DestroyEvent.detachAllVolumes,
              DestroyEvent.destroyVdis], some e)
        | Except.ok kr =>
            ([DestroyEvent.hardShutdown, DestroyEvent.detachAllVolumes,
              DestroyEvent.destroyVdis] ++ kr
              ++ [DestroyEvent.destroyVMRecord, DestroyEvent.unplugVifs,
                  DestroyEvent.unfilterInstance], none)
      else
        ([DestroyEvent.hardShutdown, DestroyEvent.destroyVMRecord,
          DestroyEvent.unplugVifs, DestroyEvent.unfilterInstance], none)

/-- `_destroy_rescue_instance` (lines 1277-1291): shut down the rescue VM,
destroy its VDIs (the original root VDI excluded), destroy its VM record. -/
def destroyRescueInstanceEvents : List DestroyEvent :=
  [DestroyEvent.rescueHardShutdown, DestroyEvent.rescueDestroyVdis,
   DestroyEvent.rescueDestroyVMRecord]

/-- `VMOps.destroy` (lines 1293-1317): look up the instance VM and the
`name-rescue` VM; if a rescue VM exists, tear it down first; then run
`_destroy` on the (possibly absent) instance VM. -/
def vmops_destroy (inst : Instance) (vm_ref rescue_vm_ref : Option Nat)
    (kernel ramdisk : Option String) (destroy_disks : Bool) :
    List DestroyEvent × Option Err :=
  ((match rescue_vm_ref with
     | some _ => destroyRescueInstanceEvents
     | none => [])
    ++ (vmops_destroy_inner inst vm_ref kernel ramdisk destroy_disks).1,
   (vmops_destroy_inner inst vm_ref kernel ramdisk destroy_disks).2)

/-- An instance with neither kernel nor ramdisk. -/
def instNoKR : Instance := ⟨"inst", "uuid-1", none, none⟩

/-- An instance with a kernel but no ramdisk. -/
def instOnlyK : Instance := ⟨"inst2", "uuid-2", some "kern", none⟩

/-- An instance with both kernel and ramdisk. -/
def instBothKR : Instance := ⟨"inst3", "uuid-3", some "kern", some "ram"⟩

/-! ## `attach_block_device_volumes` (lines 2055-2076). -/

/-- Remote calls of `attach_block_device_volumes`: the i-th
`attach_volume`, `SR.get_by_uuid`, and `volume_utils.forget_sr`. -/
inductive AttachEvent where
  | attachVolume (i : Nat)
  | getSRbyUuid (uuid : Nat)
  | forgetSR (sr_ref : Nat)
  deriving Repr, DecidableEq

/-- Python dict lookup `m[key]` on a dict kept as an insertion-ordered
association list; `none` is a `KeyError`. -/
def dictLookup (m : List (Nat × Nat)) (k : Nat) : Option Nat :=
  (m.find? (fun p => p.1 == k)).map (fun p => p.2)

/-- The `for` loop of `attach_block_device_volumes` (lines 2059-2069): each
iteration attaches one mapped volume (`attachResults` gives each attach's
outcome: the returned `sr_uuid`, or the error it raises), resolves
`sr_ref = SR.get_by_uuid(sr_uuid)`, and stores `sr_uuid_map[sr_uuid] =
sr_ref`.  Returns the events, the accumulated map, the leaked value of the
loop variable `sr_ref` (unbound before the first successful iteration), and
the raised error, if any. -/
def attachLoop : List (Except Err Nat) → (Nat → Nat) → Nat →
    List (Nat × Nat) → Option Nat → List AttachEvent →
    List AttachEvent × List (Nat × Nat) × Option Nat × Option Err
  | [], _, _, m, lastRef, evs => (evs, m, lastRef, none)
  | Except.error e :: _, _, i, m, lastRef, evs =>
      (evs ++ [AttachEvent.attachVolume i], m, lastRef, some e)
  | Except.ok uuid :: rest, get_by_uuid, i, m, _, evs =>
      attachLoop rest get_by_uuid (i + 1) (m ++ [(uuid, get_by_uuid uuid)])
        (some (get_by_uuid uuid))
        (evs ++ [AttachEvent.attachVolume i, AttachEvent.getSRbyUuid uuid])

/-- The cleanup loop (lines 2073-2074): `for sr in sr_uuid_map:
forget_sr(sr_uuid_map[sr_ref])` — note it indexes the map with the leaked
loop variable `sr_ref`, not with the iteration variable `sr`.  A failed
lookup is a `KeyError` raised inside the cleanup. -/
def cleanupLoop : List Nat → List (Nat × Nat) → Option Nat →
    List AttachEvent × Option Err
  | [], _, _ => ([], none)
  | _ :: rest, m, some r =>
      (match dictLookup m r with
       | none => ([], some Err.keyError)
       | some v =>
           ((AttachEvent.forgetSR v :: (cleanupLoop rest m (some r)).1),
            (cleanupLoop rest m (some r)).2))
  | _ :: _, _, none => ([], some Err.keyError)

/-- `attach_block_device_volumes` (lines 2055-2076): run the attach loop; on
success return `sr_uuid_map`; on failure run the cleanup loop inside
`excutils.save_and_reraise_exception()` — the original error is re-raised
unless the cleanup body itself raises, in which case the cleanup's error
propagates instead. -/
def attach_block_device_volumes (attachResults : List (Except Err Nat))
    (get_by_uuid : Nat → Nat) :
    List AttachEvent × Except Err (List (Nat × Nat)) :=
  match attachLoop attachResults get_by_uuid 0 [] none [] with
  | (evs, m, _, none) => (evs, Except.ok m)
  | (evs, m, lastRef, some e) =>
      (evs ++ (cleanupLoop (m.map (fun p => p.1)) m lastRef).1,
       Except.error
         (match (cleanupLoop (m.map (fun p => p.1)) m lastRef).2 with
          | some ce => ce
          | none => e))

/-! ## `change_instance_metadata` (lines 1176-1215) and
`_sanitize_xenstore_key` (lines 1134-1151). -/

/-- The characters xenstore keys may keep (lines 1148-1150). -/
def allowed_chars : List Char :=
  ("ABCDEFGHIJKLMNOPQRSTUVWXYZ" ++ "abcdefghijklmnopqrstuvwxyz"
    ++ "0123456789-_@").data

/-- `_sanitize_xenstore_key` (lines 1134-1151): replace every character not
in `allowed_chars` with an underscore. -/
def sanitize_xenstore_key (key : String) : String :=
  String.mk (key.data.map (fun x => if x ∈ allowed_chars then x else '_'))

/-- Observable events of `change_instance_metadata`: the per-VM lock, the
not-found warning, and the four xenstore write calls. -/
inductive MetaEvent where
  | acquireLock (key : String)
  | releaseLock (key : String)
  | warnVMNotFound
  | removeFromParamXenstore (location : String)
  | addToParamXenstore (location : String)
  | deleteFromXenstore (location : String)
  | writeToXenstore (location : String)
  deriving Repr, DecidableEq

/-- Whether the event writes to the xenstore (param list or live record). -/
def MetaEvent.isXenstoreWrite : MetaEvent → Bool
  | .removeFromParamXenstore _ => true
  | .addToParamXenstore _ => true
  | .deleteFromXenstore _ => true
  | .writeToXenstore _ => true
  | _ => false

/-- `process_change` (lines 1190-1207): a `'-'` change removes the key from
the param xenstore and deletes it from the live xenstore (the `KeyError`
raised for the missing domid when the VM is not running is caught and
ignored); a `'+'` change adds the key and writes it. -/
def process_change (vmRunning : Bool) (location : String) (isRemove : Bool) :
    List MetaEvent :=
  if isRemove then
    MetaEvent.removeFromParamXenstore location ::
      (if vmRunning then [MetaEvent.deleteFromXenstore location] else [])
  else
    MetaEvent.addToParamXenstore location ::
      (if vmRunning then [MetaEvent.writeToXenstore location] else [])

/-- Modelled from the spec: `utils.synchronized(key)` (nova/utils.py, not
among the sources) is the per-VM-identity mutual-exclusion scope: acquired at
the start of the wrapped writer and released unconditionally on exit,
including on error (spec section 5). -/
def synchronized (key : String) (body : List MetaEvent) : List MetaEvent :=
  MetaEvent.acquireLock key :: body ++ [MetaEvent.releaseLock key]

/-- `change_instance_metadata` (lines 1176-1215): when the instance name does
not resolve, warn and return; otherwise apply every change of the diff (keys
sanitized, locations under `vm-data/user-metadata/`) inside the
`'xenstore-' + instance['uuid']` synchronized scope.  A diff entry is a key
and whether the change is a removal (`'-'`) or an addition (`'+'`). -/
def change_instance_metadata (uuid : String) (vm_ref : Option Nat)
    (vmRunning : Bool) (diff : List (String × Bool)) : List MetaEvent :=
  match vm_ref with
  | none => [MetaEvent.warnVMNotFound]
  | some _ =>
      synchronized ("xenstore-" ++ uuid)
        (diff.flatMap (fun p =>
          process_change vmRunning
            ("vm-data/user-metadata/" ++ sanitize_xenstore_key p.1) p.2))

/-! ### Supporting lemmas about the tracker -/

theorem trackerRun_replicate_register (n : Nat) (si : StepInfo)
    (rest : List TrackerEvent) :
    trackerRun si (List.replicate n TrackerEvent.register ++ rest)
      = trackerRun ⟨si.total + n, si.current⟩ rest := by
  induction n generalizing si with
  | zero => simp [trackerRun]
  | succ n ih =>
      rw [List.replicate_succ, List.cons_append]
      rw [trackerRun, register_step, ih]
      have h : si.total + 1 + n = si.total + (n + 1) := by omega
      rw [h]

theorem trackerRun_replicate_advance (m : Nat) (t c : Nat) :
    trackerRun ⟨t, c⟩ (List.replicate m TrackerEvent.advance)
      = (List.range m).map (fun k => pyRound (100 * (c + k + 1)) t) := by
  induction m generalizing c with
  | zero => simp [trackerRun]
  | succ m ih =>
      rw [List.replicate_succ, trackerRun]
      simp only [bump_progress]
      rw [ih (c + 1), List.range_succ_eq_map, List.map_cons, List.map_map]
      refine congrArg₂ List.cons (by simp) ?_
      refine List.map_congr_left fun k _ => ?_
      simp only [Function.comp_apply, Nat.succ_eq_add_one]
      have h : 100 * (c + 1 + k + 1) = 100 * (c + (k + 1) + 1) := by omega
      rw [h]

theorem pyRound_le_pyRound (a b t : Nat) (h : a ≤ b) :
    pyRound a t ≤ pyRound b t := by
  unfold pyRound
  exact Nat.div_le_div_right (by omega)

/-! ### Supporting lemmas about the saga executor -/

theorem registerAll_eq (m : UndoManager) (cs : List Comp) :
    registerAll m cs = ⟨m.undos ++ cs⟩ := by
  induction cs generalizing m with
  | nil => simp [registerAll]
  | cons c cs ih =>
      rw [registerAll, List.foldl_cons]
      have h := ih (m.undo_with c)
      rw [registerAll] at h
      rw [h, UndoManager.undo_with]
      simp

theorem compsRegisteredUpTo_cons_succ (s : SagaStep) (rest : List SagaStep)
    (k j : Nat) :
    compsRegisteredUpTo (s :: rest) (k + 1) j
      = s.comps ++ compsRegisteredUpTo rest k j := by
  simp [compsRegisteredUpTo, List.append_assoc]

theorem runForward_fail (steps : List SagaStep) (k j : Nat) (e : Err)
    (m : UndoManager) (hk : k < steps.length) :
    runForward steps (some (k, j, e)) m
      = (⟨m.undos ++ compsRegisteredUpTo steps k j⟩, some e) := by
  induction steps generalizing k m with
  | nil => exact absurd hk (by simp)
  | cons s rest ih =>
      cases k with
      | zero =>
          rw [runForward, registerAll_eq]
          simp [compsRegisteredUpTo]
      | succ k =>
          have hk' : k < rest.length := by
            simp only [List.length_cons] at hk
            omega
          rw [runForward, registerAll_eq, ih k ⟨m.undos ++ s.comps⟩ hk',
            compsRegisteredUpTo_cons_succ]
          simp [List.append_assoc]

theorem compsRegisteredUpTo_sublist (steps : List SagaStep) (k j : Nat) :
    List.Sublist (compsRegisteredUpTo steps k j)
      (steps.flatMap SagaStep.comps) := by
  conv_rhs => rw [← List.take_append_drop k steps, List.flatMap_append]
  rw [compsRegisteredUpTo]
  refine List.Sublist.append (List.Sublist.refl _) ?_
  rcases hdrop : steps.drop k with _ | ⟨s, rest⟩
  · simp
  · rw [List.flatMap_cons]
    exact (List.take_sublist j s.comps).trans
      (List.sublist_append_left s.comps (rest.flatMap SagaStep.comps))

theorem spawnSaga_comp_ids (rescue : Bool) (compFails : Nat → Bool) :
    ((spawnSaga rescue compFails).flatMap SagaStep.comps).map Comp.id
      = if rescue then [0, 1, 2, 3] else [0, 1, 2] := by
  cases rescue <;> simp [spawnSaga, spawnExecutionOrder, spawnStepComps]

/-! ### Supporting lemmas about the resize-up migration -/

theorem takeWhile_append_all {α : Type} (p : α → Bool) (A B : List α)
    (h : ∀ a ∈ A, p a = true) :
    (A ++ B).takeWhile p = A ++ B.takeWhile p := by
  induction A with
  | nil => simp
  | cons a A ih =>
      have ha := h a (by simp)
      simp [List.takeWhile_cons, ha, ih (fun x hx => h x (by simp [hx]))]

theorem dropWhile_append_all {α : Type} (p : α → Bool) (A B : List α)
    (h : ∀ a ∈ A, p a = true) :
    (A ++ B).dropWhile p = B.dropWhile p := by
  induction A with
  | nil => simp
  | cons a A ih =>
      have ha := h a (by simp)
      simp [List.dropWhile_cons, ha, ih (fun x hx => h x (by simp [hx]))]

theorem filter_eq_nil_of_all {α : Type} (p : α → Bool) (l : List α)
    (h : ∀ a ∈ l, p a = false) : l.filter p = [] := by
  induction l with
  | nil => rfl
  | cons a l ih =>
      rw [List.filter_cons, h a (by simp)]
      simpa using ih (fun x hx => h x (by simp [hx]))

theorem process_ephemeral_chain_split (root : Nat) (chains : List (List Nat))
    (actives : List Nat) :
    process_ephemeral_chain_recursive root chains actives
      = ephImmutablePart chains actives.length
        ++ power_down_and_transfer_leaf_vhds root
            (actives ++ chains.map (fun c => c.headD 0)) := by
  induction chains generalizing actives with
  | nil => simp [process_ephemeral_chain_recursive, ephImmutablePart]
  | cons chain rest ih =>
      rw [process_ephemeral_chain_recursive, ephImmutablePart,
        ih (actives ++ [chain.headD 0])]
      simp [List.append_assoc, List.length_append]

theorem ephImmutablePart_all_not_shutdown (chains : List (List Nat)) (k : Nat) :
    ∀ e ∈ ephImmutablePart chains k, (!e.isShutdown) = true := by
  induction chains generalizing k with
  | nil => simp [ephImmutablePart]
  | cons chain rest ih =>
      intro e he
      rw [ephImmutablePart] at he
      rcases List.mem_cons.mp he with rfl | he2
      · rfl
      rcases List.mem_append.mp he2 with hm | hr
      · rcases List.mem_map.mp hm with ⟨p, _, rfl⟩
        rfl
      · exact ih (k + 1) e hr

theorem ephImmutablePart_filter_shutdown (chains : List (List Nat)) (k : Nat) :
    (ephImmutablePart chains k).filter MigEvent.isShutdown = [] := by
  refine filter_eq_nil_of_all _ _ fun e he => ?_
  have h := ephImmutablePart_all_not_shutdown chains k e he
  simpa using h

theorem ephImmutablePart_filter_snapshot (chains : List (List Nat)) (k : Nat) :
    (ephImmutablePart chains k).filter MigEvent.isSnapshot
      = (List.range chains.length).map
          (fun i => MigEvent.snapshotDisk (k + 1 + i)) := by
  induction chains generalizing k with
  | nil => rfl
  | cons chain rest ih =>
      rw [ephImmutablePart, List.filter_append,
        List.filter_cons_of_pos
          (show MigEvent.isSnapshot (MigEvent.snapshotDisk (k + 1)) = true
            from rfl),
        filter_eq_nil_of_all MigEvent.isSnapshot _ (fun e he => by
          rcases List.mem_map.mp he with ⟨p, _, rfl⟩
          rfl),
        ih (k + 1), List.length_cons, List.range_succ_eq_map,
        List.map_cons, List.map_map, List.cons_append, List.nil_append]
      refine congrArg₂ List.cons (by simp) ?_
      refine List.map_congr_left fun i _ => ?_
      simp only [Function.comp_apply, Nat.succ_eq_add_one]
      have h : k + 1 + 1 + i = k + 1 + (i + 1) := by omega
      rw [h]

/-! ### Supporting lemma about metadata changes -/

theorem process_change_all_writes (vmRunning : Bool) (location : String)
    (isRemove : Bool) :
    ∀ e ∈ process_change vmRunning location isRemove,
      e.isXenstoreWrite = true := by
  intro e he
  rw [process_change] at he
  cases isRemove with
  | false =>
      cases vmRunning with
      | false =>
          simp at he
          subst he
          rfl
      | true =>
          simp at he
          rcases he with rfl | rfl <;> rfl
  | true =>
      cases vmRunning with
      | false =>
          simp at he
          subst he
          rfl
      | true =>
          simp at he
          rcases he with rfl | rfl <;> rfl

end NovaVmops

namespace NovaVmops

/-- C1: for every execution of the spawn pipeline that fails at step `k`
(after registering the first `j` compensations of step `k` itself), the
rollback invokes exactly the compensations registered by the completed steps
and the partial ones of step `k`, in strict reverse (LIFO) order of
registration — each exactly once, failing compensations included — and the
caller observes the original error wrapped in the "Failed to spawn, rolling
back" fault, never a rollback-internal error. -/
theorem spawn_rollback_lifo_original_error (rescue : Bool)
    (compFails : Nat → Bool) (k j : Nat) (e : Err)
    (hk : k < (spawnSaga rescue compFails).length) :
    runPipeline (spawnSaga rescue compFails) (some (k, j, e))
      = (((compsRegisteredUpTo (spawnSaga rescue compFails) k j).reverse).map
           Comp.id,
         Except.error (Err.spawnRolledBack e))
    ∧ ∀ c ∈ compsRegisteredUpTo (spawnSaga rescue compFails) k j,
        (((compsRegisteredUpTo (spawnSaga rescue compFails) k j).reverse).map
            Comp.id).count c.id = 1 := by
  constructor
  · rw [runPipeline, runForward_fail _ _ _ _ _ hk]
    rfl
  · intro c hc
    have hsub : List.Sublist
        ((compsRegisteredUpTo (spawnSaga rescue compFails) k j).map Comp.id)
        (((spawnSaga rescue compFails).flatMap SagaStep.comps).map Comp.id) :=
      (compsRegisteredUpTo_sublist _ _ _).map Comp.id
    have hbig : (((spawnSaga rescue compFails).flatMap SagaStep.comps).map
        Comp.id).Nodup := by
      rw [spawnSaga_comp_ids]
      cases rescue <;> simp
    have hnd : ((compsRegisteredUpTo (spawnSaga rescue compFails) k j).map
        Comp.id).Nodup := hbig.sublist hsub
    rw [List.map_reverse, List.count_reverse]
    exact List.count_eq_one_of_mem hnd (List.mem_map_of_mem _ hc)

/-- C1 witness: a rescue spawn failing at the boot step (index 8) with the
kernel/ramdisk compensation itself failing rolls back the four registered
compensations in LIFO order [3, 2, 1, 0] and re-raises the wrapped original
error. -/
theorem spawn_rollback_lifo_original_error_witness :
    runPipeline (spawnSaga true (fun i => i == 1))
        (some (8, 0, Err.stepFailed 8))
      = ([3, 2, 1, 0], Except.error (Err.spawnRolledBack (Err.stepFailed 8))) := by
  have h := (spawn_rollback_lifo_original_error true (fun i => i == 1) 8 0
    (Err.stepFailed 8) (by decide)).1
  rw [h]
  rfl

/-- C2: spawn with `power_on=true`, first boot, no rescue: `_spawn` invokes
exactly ten steps in the order determine-disk-type, create-disks,
create-kernel/ramdisk, create-vm-record, attach-disks, inject-instance-data,
setup-network, boot, configure (first boot), apply-security-filters; the
progress emissions are 10%,...,100%, and 100 is emitted exactly once, at the
completion of the tenth step. -/
theorem spawn_first_boot_ten_steps_in_order_progress_100 :
    spawnExecutionOrder false =
      [.determineDiskImageType, .createDisks, .createKernelRamdisk,
       .createVMRecord, .attachDisks, .injectInstanceData, .setupNetwork,
       .bootInstance, .configureBootedInstance, .applySecurityGroupFilters]
    ∧ (spawnExecutionOrder false).length = 10
    ∧ spawnProgressEmissions false = [10, 20, 30, 40, 50, 60, 70, 80, 90, 100]
    ∧ (spawnProgressEmissions false).count 100 = 1
    ∧ (spawnProgressEmissions false).getLast? = some 100 := by
  refine ⟨by decide, by decide, ?_, ?_, ?_⟩ <;> decide

/-- C3 counterexample: in the rescue pipeline the step executed immediately
after `create_vm_record_step` (position 3) is `attach_disks_step`, not
`attach_root_disk_step`; so "attach original root disk executes immediately
after the create-vm-record step" is false of `_spawn` (lines 487-497). -/
theorem rescue_attach_root_not_immediately_after_create_vm :
    (spawnExecutionOrder true)[3]? = some .createVMRecord
    ∧ (spawnExecutionOrder true)[4]? = some .attachDisks
    ∧ (spawnExecutionOrder true)[4]? ≠ some .attachRootDisk := by
  refine ⟨by decide, by decide, by decide⟩

/-- C3 (amended): in every rescue spawn pipeline, the attach-original-root-disk
step executes after the create-vm-record step (with attach-disks,
inject-instance-data and setup-network in between) and immediately before the
boot step; it is absent from non-rescue pipelines. -/
theorem rescue_attach_root_after_create_vm_immediately_before_boot :
    (spawnExecutionOrder true)[3]? = some .createVMRecord
    ∧ (spawnExecutionOrder true)[7]? = some .attachRootDisk
    ∧ (spawnExecutionOrder true)[8]? = some .bootInstance
    ∧ StepName.attachRootDisk ∉ spawnExecutionOrder false := by
  refine ⟨by decide, by decide, by decide, by decide⟩

/-- C4: in every `_migrate_disk_resizing_up` run over one root disk and N
ephemeral disks, exactly one power-down occurs; every event before it is a
snapshot or an immutable-chain transfer, with the N+1 snapshots taken root
first and then each ephemeral in turn; and the segment from the power-down on
is exactly the single `power_down_and_transfer_leaf_vhds` step, which shuts
the VM down and transfers the mutable leaf VHD of the root (sequence 0) and
of each of the N ephemeral disks. -/
theorem resize_up_all_immutable_before_single_power_down
    (rootVdiUuids : List Nat) (ephemeralChains : List (List Nat)) :
    (migrate_disk_resizing_up rootVdiUuids ephemeralChains).filter
        MigEvent.isShutdown = [MigEvent.shutdownVM]
    ∧ ((migrate_disk_resizing_up rootVdiUuids ephemeralChains).takeWhile
          (fun e => !e.isShutdown)).filter MigEvent.isSnapshot
        = MigEvent.snapshotDisk 0 ::
            (List.range ephemeralChains.length).map
              (fun i => MigEvent.snapshotDisk (i + 1))
    ∧ (migrate_disk_resizing_up rootVdiUuids ephemeralChains).dropWhile
          (fun e => !e.isShutdown)
        = power_down_and_transfer_leaf_vhds (rootVdiUuids.headD 0)
            (ephemeralChains.map (fun c => c.headD 0)) := by
  have hsplit : migrate_disk_resizing_up rootVdiUuids ephemeralChains
      = (MigEvent.snapshotDisk 0 ::
          ((rootVdiUuids.drop 1).enum.map
            (fun p => MigEvent.migrateVhd 0 (p.1 + 1) p.2))
          ++ ephImmutablePart ephemeralChains 0)
        ++ power_down_and_transfer_leaf_vhds (rootVdiUuids.headD 0)
            (ephemeralChains.map (fun c => c.headD 0)) := by
    rw [migrate_disk_resizing_up, process_ephemeral_chain_split]
    simp [transfer_immutable_vhds, List.append_assoc]
  have hA : ∀ e ∈ (MigEvent.snapshotDisk 0 ::
        ((rootVdiUuids.drop 1).enum.map
          (fun p => MigEvent.migrateVhd 0 (p.1 + 1) p.2))
        ++ ephImmutablePart ephemeralChains 0), (!e.isShutdown) = true := by
    intro e he
    rcases List.mem_cons.mp he with rfl | he2
    · rfl
    rcases List.mem_append.mp he2 with hm | hr
    · rcases List.mem_map.mp hm with ⟨p, _, rfl⟩
      rfl
    · exact ephImmutablePart_all_not_shutdown _ _ e hr
  refine ⟨?_, ?_, ?_⟩
  · rw [hsplit, List.filter_append,
      filter_eq_nil_of_all MigEvent.isShutdown _ (fun e he => by
        have h := hA e he
        simpa using h),
      List.nil_append, power_down_and_transfer_leaf_vhds,
      List.filter_cons_of_pos
        (show MigEvent.isShutdown MigEvent.shutdownVM = true from rfl),
      filter_eq_nil_of_all MigEvent.isShutdown _ (fun e he => by
        rcases List.mem_cons.mp he with rfl | hm
        · rfl
        · rcases List.mem_map.mp hm with ⟨p, _, rfl⟩
          rfl)]
  · have hB : (power_down_and_transfer_leaf_vhds (rootVdiUuids.headD 0)
          (ephemeralChains.map (fun c => c.headD 0))).takeWhile
          (fun e => !e.isShutdown) = [] := by
      rw [power_down_and_transfer_leaf_vhds, List.takeWhile_cons]
      simp [MigEvent.isShutdown]
    rw [hsplit, takeWhile_append_all _ _ _ hA, hB, List.append_nil,
      List.filter_append,
      List.filter_cons_of_pos
        (show MigEvent.isSnapshot (MigEvent.snapshotDisk 0) = true from rfl),
      filter_eq_nil_of_all MigEvent.isSnapshot _ (fun e he => by
        rcases List.mem_map.mp he with ⟨p, _, rfl⟩
        rfl),
      ephImmutablePart_filter_snapshot, List.cons_append, List.nil_append]
    refine congrArg₂ List.cons rfl ?_
    refine List.map_congr_left fun i _ => ?_
    have h : 0 + 1 + i = i + 1 := by omega
    rw [h]
  · rw [hsplit, dropWhile_append_all _ _ _ hA,
      power_down_and_transfer_leaf_vhds, List.dropWhile_cons]
    simp [MigEvent.isShutdown, power_down_and_transfer_leaf_vhds]

/-- C8 counterexample: in the `_migrate_disk_resizing_down` run the decorator
is created with `total_offset=1`, so the total used in every percentage is 5
while only 4 step registrations are made: the emissions are [20,40,60,80],
not the [25,50,75,100] that a total equal to the number of registrations
would give. -/
theorem progress_total_differs_from_registration_count :
    trackerRun (make_step_decorator_init 1) resizeDownTrackerEvents
        = [20, 40, 60, 80]
    ∧ pyRound (100 * 1) 4 = 25
    ∧ trackerRun (make_step_decorator_init 1) resizeDownTrackerEvents
        ≠ [25, 50, 75, 100] := by
  refine ⟨by decide, by decide, by decide⟩

/-- C8 (amended): within one pipeline run in which all registrations precede
all advances (as in every `_spawn`/resize run), every emitted progress update
equals `(current / total) * 100` rounded to nearest, where `total` is the
`total_offset` passed to `make_step_decorator` plus the number of step
registrations made for that run (`total_offset` is 0 for spawn); the emitted
percentage sequence is monotonically non-decreasing. -/
theorem progress_emissions_formula_and_monotone (offset n m : Nat) :
    trackerRun (make_step_decorator_init offset)
        (List.replicate n TrackerEvent.register
          ++ List.replicate m TrackerEvent.advance)
      = (List.range m).map (fun k => pyRound (100 * (k + 1)) (offset + n))
    ∧ List.Pairwise (· ≤ ·)
        (trackerRun (make_step_decorator_init offset)
          (List.replicate n TrackerEvent.register
            ++ List.replicate m TrackerEvent.advance)) := by
  have hrun : trackerRun (make_step_decorator_init offset)
      (List.replicate n TrackerEvent.register
        ++ List.replicate m TrackerEvent.advance)
      = (List.range m).map (fun k => pyRound (100 * (k + 1)) (offset + n)) := by
    rw [make_step_decorator_init, trackerRun_replicate_register,
      trackerRun_replicate_advance]
    exact List.map_congr_left fun k _ => by rw [Nat.zero_add]
  refine ⟨hrun, ?_⟩
  rw [hrun, List.pairwise_map]
  refine List.Pairwise.imp ?_ (List.pairwise_lt_range m)
  intro a b hab
  exact pyRound_le_pyRound _ _ _ (by omega)

end NovaVmops

namespace NovaVmops

/-- C5: a spawn whose target name already resolves to a live VM handle fails
with the duplicate-name fault `InstanceExists` after performing only the
uniqueness check — zero pipeline steps (and hence zero remote allocation
calls) start; and in every `_spawn` run in which any pipeline step starts,
the duplicate-name check and the free-memory check are the first two events,
before any step. -/
theorem spawn_duplicate_name_fails_fast (env : SpawnEnv)
    (name_label : String) (rescue : Bool) (failAt : Option Nat) :
    (∀ h, env.lookup name_label = some h →
      spawnEvents env name_label rescue failAt
        = ([SpawnEvent.checkNameUnique],
           Except.error (Err.instanceExists name_label)))
    ∧ (∀ s, SpawnEvent.stepStarted s
          ∈ (spawnEvents env name_label rescue failAt).1 →
        (spawnEvents env name_label rescue failAt).1.take 2
            = [SpawnEvent.checkNameUnique, SpawnEvent.checkFreeMem]
          ∧ ∀ e ∈ (spawnEvents env name_label rescue failAt).1.drop 2,
              ∃ s2, e = SpawnEvent.stepStarted s2) := by
  constructor
  · intro h hl
    simp [spawnEvents, ensure_instance_name_unique, hl]
  · intro s hs
    rcases hlook : env.lookup name_label with _ | h
    · have h1 : ensure_instance_name_unique env name_label = Except.ok () := by
        rw [ensure_instance_name_unique, hlook]
      rcases hmem : env.enoughFreeMem with _ | _
      · simp [spawnEvents, ensure_instance_name_unique,
          ensure_enough_free_mem, hlook, hmem] at hs
      · have h2 : ensure_enough_free_mem env = Except.ok () := by
          rw [ensure_enough_free_mem, if_pos hmem]
        rcases failAt with _ | k
        · have heq : (spawnEvents env name_label rescue none).1
              = SpawnEvent.checkNameUnique :: SpawnEvent.checkFreeMem ::
                  (spawnExecutionOrder rescue).map SpawnEvent.stepStarted := by
            unfold spawnEvents
            rw [h1, h2]
          rw [heq]
          refine ⟨rfl, fun e he => ?_⟩
          rcases List.mem_map.mp he with ⟨s2, _, rfl⟩
          exact ⟨s2, rfl⟩
        · have heq : (spawnEvents env name_label rescue (some k)).1
              = SpawnEvent.checkNameUnique :: SpawnEvent.checkFreeMem ::
                  ((spawnExecutionOrder rescue).take (k + 1)).map
                    SpawnEvent.stepStarted := by
            unfold spawnEvents
            rw [h1, h2]
          rw [heq]
          refine ⟨rfl, fun e he => ?_⟩
          rcases List.mem_map.mp he with ⟨s2, _, rfl⟩
          exact ⟨s2, rfl⟩
    · simp [spawnEvents, ensure_instance_name_unique, hlook] at hs

/-- C5 witness: with every name resolving to handle 7, a first-boot spawn
fails with `InstanceExists` after the uniqueness check alone. -/
theorem spawn_duplicate_name_fails_fast_witness :
    spawnEvents spawnEnvDup "instance-1" false none
      = ([SpawnEvent.checkNameUnique],
         Except.error (Err.instanceExists "instance-1")) :=
  (spawn_duplicate_name_fails_fast spawnEnvDup "instance-1" false none).1 7 rfl

/-- C6 counterexample: a destroy on a target whose name does not resolve but
whose `name-rescue` VM does resolve performs the rescue teardown (hard
shutdown, VDI destruction, VM record destruction) before the warning-only
no-op, so "performs zero teardown actions" is false as stated. -/
theorem destroy_unresolved_name_with_rescue_vm_tears_down :
    (vmops_destroy instNoKR none (some 1) none none true).1
      = [DestroyEvent.rescueHardShutdown, DestroyEvent.rescueDestroyVdis,
         DestroyEvent.rescueDestroyVMRecord, DestroyEvent.warnVMNotPresent]
    ∧ (vmops_destroy instNoKR none (some 1) none none true).1
        ≠ [DestroyEvent.warnVMNotPresent] := by
  refine ⟨rfl, by decide⟩

/-- C6 (amended): a destroy on a target for which neither the instance name
nor the `name-rescue` name resolves to a VM handle returns successfully
without raising, performs no teardown actions, and emits only the
warning-level "VM is not present" signal. -/
theorem destroy_no_handles_is_warning_only_noop (inst : Instance)
    (kernel ramdisk : Option String) (destroy_disks : Bool) :
    vmops_destroy inst none none kernel ramdisk destroy_disks
      = ([DestroyEvent.warnVMNotPresent], none) := rfl

/-- C7: for a destroy with storage teardown requested on a resolvable VM:
no kernel and no ramdisk skips the removal step and the teardown completes;
exactly one of the two present raises `InstanceUnacceptable`; both present
(and found on the VM) removes both files and the teardown completes. -/
theorem destroy_kernel_ramdisk_rule (inst : Instance) (r : Nat)
    (kernel ramdisk : Option String) :
    ((inst.kernel_id = none ∧ inst.ramdisk_id = none) →
      vmops_destroy_inner inst (some r) kernel ramdisk true
        = ([DestroyEvent.hardShutdown, DestroyEvent.detachAllVolumes,
            DestroyEvent.destroyVdis, DestroyEvent.destroyVMRecord,
            DestroyEvent.unplugVifs, DestroyEvent.unfilterInstance], none))
    ∧ ((inst.kernel_id = none ↔ inst.ramdisk_id ≠ none) →
      vmops_destroy_inner inst (some r) kernel ramdisk true
        = ([DestroyEvent.hardShutdown, DestroyEvent.detachAllVolumes,
            DestroyEvent.destroyVdis], some Err.instanceUnacceptable))
    ∧ (∀ kf rf, inst.kernel_id ≠ none → inst.ramdisk_id ≠ none →
        kernel = some kf → ramdisk = some rf →
      vmops_destroy_inner inst (some r) kernel ramdisk true
        = ([DestroyEvent.hardShutdown, DestroyEvent.detachAllVolumes,
            DestroyEvent.destroyVdis,
            DestroyEvent.removeKernelRamdisk (some kf) (some rf),
            DestroyEvent.destroyVMRecord, DestroyEvent.unplugVifs,
            DestroyEvent.unfilterInstance], none)) := by
  refine ⟨?_, ?_, ?_⟩
  · rintro ⟨hk, hr⟩
    simp [vmops_destroy_inner, destroy_kernel_ramdisk, hk, hr]
  · intro hxor
    rcases hk : inst.kernel_id with _ | k <;>
      rcases hr : inst.ramdisk_id with _ | rd
    · rw [hk, hr] at hxor
      simp at hxor
    · simp [vmops_destroy_inner, destroy_kernel_ramdisk, hk, hr]
    · simp [vmops_destroy_inner, destroy_kernel_ramdisk, hk, hr]
    · rw [hk, hr] at hxor
      simp at hxor
  · intro kf rf hk hr hkf hrf
    subst hkf
    subst hrf
    rcases hk2 : inst.kernel_id with _ | k
    · exact absurd hk2 hk
    rcases hr2 : inst.ramdisk_id with _ | rd
    · exact absurd hr2 hr
    simp [vmops_destroy_inner, destroy_kernel_ramdisk, hk2, hr2]

/-- C7 witness: the three kernel/ramdisk cases at concrete instances: none
present (skip, proceed), kernel only (integrity fault), both present (both
files removed, proceed). -/
theorem destroy_kernel_ramdisk_rule_witness :
    vmops_destroy_inner instNoKR (some 0) none none true
      = ([DestroyEvent.hardShutdown, DestroyEvent.detachAllVolumes,
          DestroyEvent.destroyVdis, DestroyEvent.destroyVMRecord,
          DestroyEvent.unplugVifs, DestroyEvent.unfilterInstance], none)
    ∧ vmops_destroy_inner instOnlyK (some 0) (some "kern") none true
      = ([DestroyEvent.hardShutdown, DestroyEvent.detachAllVolumes,
          DestroyEvent.destroyVdis], some Err.instanceUnacceptable)
    ∧ vmops_destroy_inner instBothKR (some 0) (some "kern") (some "ram") true
      = ([DestroyEvent.hardShutdown, DestroyEvent.detachAllVolumes,
          DestroyEvent.destroyVdis,
          DestroyEvent.removeKernelRamdisk (some "kern") (some "ram"),
          DestroyEvent.destroyVMRecord, DestroyEvent.unplugVifs,
          DestroyEvent.unfilterInstance], none) :=
  ⟨(destroy_kernel_ramdisk_rule instNoKR 0 none none).1 ⟨rfl, rfl⟩,
   (destroy_kernel_ramdisk_rule instOnlyK 0 (some "kern") none).2.1
     (by simp [instOnlyK]),
   (destroy_kernel_ramdisk_rule instBothKR 0 (some "kern") (some "ram")).2.2
     "kern" "ram" (by simp [instBothKR]) (by simp [instBothKR]) rfl rfl⟩

/-- C9: the error-cleanup path of `attach_block_device_volumes` indexes
`sr_uuid_map` with the leaked loop variable `sr_ref` (line 2074), an SR ref
rather than a uuid key: with one volume attached (uuid 1 mapped to ref 101)
and the second attach failing, the cleanup's dict lookup raises a `KeyError`
that masks the original error, and the connected SR (ref 101) is never
forgotten — instead of forgetting each recorded SR by its own entry and
re-raising the original error as the claim states. -/
theorem attach_block_device_volumes_cleanup_uses_wrong_key :
    attach_block_device_volumes
        [Except.ok 1, Except.error (Err.stepFailed 1)] (fun u => u + 100)
      = ([AttachEvent.attachVolume 0, AttachEvent.getSRbyUuid 1,
          AttachEvent.attachVolume 1],
         Except.error Err.keyError)
    ∧ AttachEvent.forgetSR 101 ∉
        (attach_block_device_volumes
          [Except.ok 1, Except.error (Err.stepFailed 1)]
          (fun u => u + 100)).1 := by
  refine ⟨rfl, by decide⟩

/-- C10: `change_instance_metadata` on an instance whose name does not
resolve returns after the warning alone, writing nothing; when the handle
resolves, the whole run is the acquire of the `xenstore-<uuid>` per-VM lock,
then only xenstore writes, then the unconditional release of that lock — so
every xenstore write happens inside the per-VM-identity mutual-exclusion
scope. -/
theorem change_instance_metadata_noop_when_absent_writes_locked
    (uuid : String) (vmRunning : Bool) (diff : List (String × Bool)) :
    (change_instance_metadata uuid none vmRunning diff
        = [MetaEvent.warnVMNotFound]
      ∧ ∀ e ∈ change_instance_metadata uuid none vmRunning diff,
          e.isXenstoreWrite = false)
    ∧ ∀ r : Nat, ∃ ws,
        change_instance_metadata uuid (some r) vmRunning diff
          = MetaEvent.acquireLock ("xenstore-" ++ uuid) ::
              ws ++ [MetaEvent.releaseLock ("xenstore-" ++ uuid)]
          ∧ ∀ e ∈ ws, e.isXenstoreWrite = true := by
  refine ⟨⟨rfl, ?_⟩, ?_⟩
  · intro e he
    simp [change_instance_metadata] at he
    subst he
    rfl
  · intro r
    refine ⟨diff.flatMap (fun p =>
        process_change vmRunning
          ("vm-data/user-metadata/" ++ sanitize_xenstore_key p.1) p.2),
      rfl, ?_⟩
    intro e he
    rcases List.mem_flatMap.mp he with ⟨p, _, hin⟩
    exact process_change_all_writes _ _ _ e hin

/-- C10 witness: with one addition in the diff, the absent-handle call is the
warning alone, and the resolved-handle call wraps only xenstore writes in
the per-VM lock scope. -/
theorem change_instance_metadata_witness :
    change_instance_metadata "uuid-w" none true [("a key", false)]
      = [MetaEvent.warnVMNotFound]
    ∧ ∃ ws, change_instance_metadata "uuid-w" (some 5) true [("a key", false)]
        = MetaEvent.acquireLock ("xenstore-" ++ "uuid-w") ::
            ws ++ [MetaEvent.releaseLock ("xenstore-" ++ "uuid-w")]
        ∧ ∀ e ∈ ws, e.isXenstoreWrite = true :=
  ⟨(change_instance_metadata_noop_when_absent_writes_locked "uuid-w" true
      [("a key", false)]).1.1,
   (change_instance_metadata_noop_when_absent_writes_locked "uuid-w" true
      [("a key", false)]).2 5⟩

end NovaVmops
